import Mathlib

/-!
Shallow embedding of the wallet transaction adapter in
`src/utils/walletApi/binance.js` of the bridge repository.

External collaborators that the adapter calls (the Vuex store getters, the
web3 provider, the cross-chain address codec) are modelled as explicit
function-valued parameters; the adapter's own logic is translated directly
from the source.  Helper functions from `@/utils/convertors`, which are not
part of the two source files, are modelled from the specification and say so
in their doc comments.
-/

/-- JS `String.prototype.startsWith` on character lists. -/
def listStartsWith : List Char → List Char → Bool
  | [], _ => true
  | _ :: _, [] => false
  | a :: as, b :: bs => a == b && listStartsWith as bs

/-- Contiguous-substring test on character lists (needle, haystack). -/
def listContainsSub (needle : List Char) : List Char → Bool
  | [] => needle.isEmpty
  | c :: rest => listStartsWith needle (c :: rest) || listContainsSub needle rest

/-- JS `String.prototype.includes` (haystack, needle). -/
def strIncludes (hay needle : String) : Bool :=
  listContainsSub needle.data hay.data

/-- Value of a list of ASCII decimal digits, most significant first. -/
def digitsToNat (s : List Char) : Nat :=
  s.foldl (fun acc c => acc * 10 + (c.toNat - 48)) 0

/-- Split a character list at the first '.', returning the integer part and,
when a dot is present, the fractional part. -/
def splitOnDot : List Char → List Char × Option (List Char)
  | [] => ([], none)
  | c :: rest =>
    if c == '.' then ([], some rest)
    else
      let r := splitOnDot rest
      (c :: r.1, r.2)

/-- Modelled from the spec: `decimalToInteger` of `@/utils/convertors`, which is
not among the repository's source files.  Section 4.1: shift the decimal point
right by `decimals` digits, truncating (never rounding) any fractional digits
beyond that precision; `decimals = 0` is the identity on the integer value. -/
def decimalToInteger (value : String) (decimals : Nat) : Nat :=
  let p := splitOnDot value.data
  match p.2 with
  | none => digitsToNat p.1 * 10 ^ decimals
  | some frac =>
    digitsToNat p.1 * 10 ^ decimals +
      digitsToNat (frac.take decimals ++ List.replicate (decimals - frac.length) '0')

/-- Modelled from the spec: `integerToDecimal` of `@/utils/convertors`, which is
not among the repository's source files.  Section 4.1: shift the decimal point
left by `decimals` digits, producing a normalized decimal string with no
trailing fractional zeros and no precision loss. -/
def integerToDecimal (value : Nat) (decimals : Nat) : String :=
  let ip := value / 10 ^ decimals
  let fp := value % 10 ^ decimals
  let fracDigits := List.replicate (decimals - (toString fp).length) '0' ++ (toString fp).data
  let trimmed := (fracDigits.reverse.dropWhile (fun c => c == '0')).reverse
  if trimmed.isEmpty then toString ip else toString ip ++ "." ++ String.mk trimmed

example : decimalToInteger "1.5" 18 = 1500000000000000000 := by decide
example : decimalToInteger "0.01" 18 = 10000000000000000 := by decide
example : decimalToInteger "1.239" 2 = 123 := by decide
example : integerToDecimal 42 18 = "0.000000000000000042" := by decide
example : strIncludes "error: Rejected by user" "Rejected by user" = true := by decide

/-- The all-zero token hash that `binance.js` compares token hashes against to
detect the chain's native coin (the literal
`'0000000000000000000000000000000000000000'` at lines 107, 122, 136, 235). -/
def nativeTokenSentinel : String := "0000000000000000000000000000000000000000"

/-- Result of `store.getters.getTokenBasicByChainIdAndTokenHash`; only the
`decimals` field is used by the adapter. -/
structure TokenBasic where
  decimals : Nat
  deriving DecidableEq

/-- Result of `store.getters.getChain`. -/
structure Chain where
  lockContractHash : String
  nftLockContractHash : String
  nftFeeName : Option String
  deriving DecidableEq

/-- The external Vuex store getters the adapter reads.  A token registry miss is
`none` (JS `undefined`). -/
structure Store where
  getTokenBasicByChainIdAndTokenHash : Nat → String → Option TokenBasic
  getChain : Nat → Chain

/-- A transaction receipt as consumed by `getTransactionStatus`; `status` is the
receipt's success flag. -/
structure TransactionReceipt where
  status : Bool
  deriving DecidableEq

/-- The web3 provider round-trips the adapter performs, modelled as pure
lookups. -/
structure Provider where
  ethGetBalance : String → Nat
  balanceOf : String → String → Nat
  allowance : String → String → String → Nat
  totalSupply : String → Nat
  getApproved : String → Nat → String
  getTransactionReceipt : String → Option TransactionReceipt

/-- One chain round-trip issued by a query, recorded so that "no contract call
is made" is expressible. -/
inductive ChainCall
  | nativeBalance (address : String)
  | contractCall (tokenHash method : String) (args : List String)
  deriving DecidableEq

/-- Whether a recorded chain round-trip is a token-contract call. -/
def isContractCall : ChainCall → Bool
  | ChainCall.contractCall _ _ _ => true
  | ChainCall.nativeBalance _ => false

/-- `getBalance` (binance.js lines 103-117).  Returns the decimal balance
string together with the list of chain round-trips it issued; `none` models the
thrown (classified) error when the token registry lookup misses and
`tokenBasic.decimals` is dereferenced. -/
def getBalance (store : Store) (provider : Provider) (chainId : Nat)
    (address tokenHash : String) : Option (String × List ChainCall) :=
  let tokenBasic := store.getTokenBasicByChainIdAndTokenHash chainId tokenHash
  if tokenHash = nativeTokenSentinel then
    let result := provider.ethGetBalance address
    match tokenBasic with
    | some tb => some (integerToDecimal result tb.decimals, [ChainCall.nativeBalance address])
    | none => none
  else
    let result := provider.balanceOf tokenHash address
    match tokenBasic with
    | some tb => some (integerToDecimal result tb.decimals,
        [ChainCall.contractCall tokenHash "balanceOf" [address]])
    | none => none

/-- `getAllowance` (binance.js lines 119-131).  The inner `Option String` is
the JS return value, with `none` standing for the literal `null` returned for
the native sentinel. -/
def getAllowance (store : Store) (provider : Provider) (chainId : Nat)
    (address tokenHash spender : String) : Option (Option String × List ChainCall) :=
  let tokenBasic := store.getTokenBasicByChainIdAndTokenHash chainId tokenHash
  if tokenHash = nativeTokenSentinel then
    some (none, [])
  else
    match tokenBasic with
    | some tb =>
      let result := provider.allowance tokenHash address ("0x" ++ spender)
      some (some (integerToDecimal result tb.decimals),
        [ChainCall.contractCall tokenHash "allowance" [address, "0x" ++ spender]])
    | none => none

/-- `getTotalSupply` (binance.js lines 133-145). -/
def getTotalSupply (store : Store) (provider : Provider) (chainId : Nat)
    (tokenHash : String) : Option (Option String × List ChainCall) :=
  let tokenBasic := store.getTokenBasicByChainIdAndTokenHash chainId tokenHash
  if tokenHash = nativeTokenSentinel then
    some (none, [])
  else
    match tokenBasic with
    | some tb =>
      let result := provider.totalSupply tokenHash
      some (some (integerToDecimal result tb.decimals),
        [ChainCall.contractCall tokenHash "totalSupply" []])
    | none => none

/-- `SingleTransactionStatus` from `@/utils/enums`, as used by
`getTransactionStatus`. -/
inductive SingleTransactionStatus
  | Done
  | Failed
  | Pending
  deriving DecidableEq

/-- `getTransactionStatus` (binance.js lines 147-159): a fresh receipt lookup
for `0x`-prefixed hash, mapped to the three-state status. -/
def getTransactionStatus (provider : Provider) (transactionHash : String) :
    SingleTransactionStatus :=
  match provider.getTransactionReceipt ("0x" ++ transactionHash) with
  | some transactionReceipt =>
    if transactionReceipt.status then SingleTransactionStatus.Done
    else SingleTransactionStatus.Failed
  | none => SingleTransactionStatus.Pending

/-- `getNFTApproved` (binance.js lines 189-203): reads the approved spender of
the token id and returns `!(result === chain.nftLockContractHash)`. -/
def getNFTApproved (store : Store) (provider : Provider) (fromChainId : Nat)
    (tokenHash id : String) : Bool :=
  let chain := store.getChain fromChainId
  let tokenID := decimalToInteger id 0
  let result := provider.getApproved tokenHash tokenID
  !(result == chain.nftLockContractHash)

/-- `WalletError.CODES` from `@/utils/errors`, restricted to the three codes
`convertWalletError` assigns. -/
inductive ErrorCode
  | USER_REJECTED
  | INSUFFICIENT_FUNDS
  | UNKNOWN_ERROR
  deriving DecidableEq

/-- A raw provider/contract error: only its message is inspected. -/
structure RawError where
  message : String
  deriving DecidableEq

/-- A typed `WalletError` instance: message, code and the retained cause. -/
structure WalletError where
  message : String
  code : ErrorCode
  cause : Option RawError
  deriving DecidableEq

/-- The input of `convertWalletError`: either an already typed `WalletError`
(the JS `instanceof` branch) or a raw error. -/
inductive ProviderError
  | wallet (e : WalletError)
  | raw (e : RawError)

/-- `convertWalletError` (binance.js lines 30-41). -/
def convertWalletError : ProviderError → WalletError
  | ProviderError.wallet error => error
  | ProviderError.raw error =>
    let code :=
      if strIncludes error.message "Rejected by user" then ErrorCode.USER_REJECTED
      else if strIncludes error.message "insufficient funds" then ErrorCode.INSUFFICIENT_FUNDS
      else ErrorCode.UNKNOWN_ERROR
    { message := error.message, code := code, cause := some error }

/-- JS truthiness of an optional string field (`undefined` and `''` are
falsy). -/
def jsTruthyStr : Option String → Bool
  | none => false
  | some s => !(s == "")

/-- The contract call `lock(...).send({from, value})` that `lock` builds:
the lock contract address, the six method arguments and the send options. -/
structure LockTx where
  lockContractHash : String
  token : String
  toChainId : Nat
  toAddressHex : String
  amount : Nat
  fee : Nat
  flag : Nat
  fromAddress : String
  value : Nat
  deriving DecidableEq

/-- `lock` (binance.js lines 205-242) up to transaction submission: the
transaction it hands to the provider.  `addressToHex` is the destination
chain's `getChainApi(toChainId).addressToHex`; `none` models the thrown
(classified) error when the token registry lookup misses. -/
def lock (store : Store) (addressToHex : String → String) (fromChainId : Nat)
    (fromAddress fromTokenHash : String) (toChainId : Nat)
    (toAddress amount fee : String) : Option LockTx :=
  let chain := store.getChain fromChainId
  match store.getTokenBasicByChainIdAndTokenHash fromChainId fromTokenHash with
  | none => none
  | some tokenBasic =>
    let toAddressHex := addressToHex toAddress
    let amountInt := decimalToInteger amount tokenBasic.decimals
    let feeInt :=
      decimalToInteger fee (if jsTruthyStr chain.nftFeeName then 18 else tokenBasic.decimals)
    some
      { lockContractHash := chain.lockContractHash
        token := "0x" ++ fromTokenHash
        toChainId := toChainId
        toAddressHex := "0x" ++ toAddressHex
        amount := amountInt
        fee := feeInt
        flag := 0
        fromAddress := fromAddress
        value := if fromTokenHash = nativeTokenSentinel then amountInt else feeInt }

/-- The asynchronous signals a web3 submission (`PromiEvent`) can emit to the
listeners `confirmLater` registers. -/
inductive PromiseEvent
  | transactionHash (hash : String)
  | error (message : String)
  | confirmation (confNumber : Nat)
  deriving DecidableEq

/-- The settlement state of the promise `confirmLater` returns.  A JS promise
settles at most once: `resolve`/`reject` after settlement are no-ops. -/
inductive Settlement
  | pending
  | resolvedWith (hash : String)
  | rejectedWith (message : String)
  deriving DecidableEq

/-- State of one `confirmLater` call: which of the three listeners registered
at lines 20, 21 and 26 of binance.js are still registered on the submission,
and the settlement of the returned promise. -/
structure ConfirmLaterState where
  hashListenerOn : Bool
  errorListenerOn : Bool
  confListenerOn : Bool
  settled : Settlement
  deriving DecidableEq

/-- `confirmLater` right after registering its listeners (binance.js lines
18-27): all three listeners on, promise pending. -/
def confirmLaterInit : ConfirmLaterState :=
  { hashListenerOn := true
    errorListenerOn := true
    confListenerOn := true
    settled := Settlement.pending }

/-- JS promise `resolve`: settles a pending promise, no-op afterwards. -/
def settleResolve (s : Settlement) (hash : String) : Settlement :=
  match s with
  | Settlement.pending => Settlement.resolvedWith hash
  | t => t

/-- JS promise `reject`: settles a pending promise, no-op afterwards. -/
def settleReject (s : Settlement) (message : String) : Settlement :=
  match s with
  | Settlement.pending => Settlement.rejectedWith message
  | t => t

/-- Delivery of one submission event to the listeners of `confirmLater`:
`transactionHash` invokes `resolve`, `error` invokes `reject`, and
`confirmation` invokes `onConfirm`, whose whole body is
`promise.off('confirmation', onConfirm)` (binance.js lines 23-25).  A handler
only runs while its listener is registered. -/
def confirmLaterStep (s : ConfirmLaterState) (e : PromiseEvent) : ConfirmLaterState :=
  match e with
  | PromiseEvent.transactionHash h =>
    if s.hashListenerOn then { s with settled := settleResolve s.settled h } else s
  | PromiseEvent.error m =>
    if s.errorListenerOn then { s with settled := settleReject s.settled m } else s
  | PromiseEvent.confirmation _ =>
    if s.confListenerOn then { s with confListenerOn := false } else s

/-- `confirmLater` exposed to a whole sequence of submission events. -/
def confirmLaterRun (events : List PromiseEvent) : ConfirmLaterState :=
  events.foldl confirmLaterStep confirmLaterInit

/-- Follows the spec's words (sections 4.4 and 8): the returned promise
settles on the first `transactionHash` or `error` signal — resolving with the
hash, respectively rejecting — and confirmation events never settle it. -/
def specSettlement : List PromiseEvent → Settlement
  | [] => Settlement.pending
  | PromiseEvent.transactionHash h :: _ => Settlement.resolvedWith h
  | PromiseEvent.error m :: _ => Settlement.rejectedWith m
  | PromiseEvent.confirmation _ :: rest => specSettlement rest

/-- Whether an event is a confirmation event. -/
def isConfirmationEvent : PromiseEvent → Bool
  | PromiseEvent.confirmation _ => true
  | PromiseEvent.transactionHash _ => false
  | PromiseEvent.error _ => false

/-- Whether a confirmation event occurs in the sequence. -/
def hasConfirmation (events : List PromiseEvent) : Bool :=
  events.any isConfirmationEvent

/-- `ChainId` from `@/utils/enums`, restricted to the one value binance.js
maps to. -/
inductive ChainIdEnum
  | Bsc
  deriving DecidableEq

/-- `NETWORK_CHAIN_ID_MAPS` (binance.js lines 13-15): maps network id 56
(mainnet) or 97 (testnet) to `ChainId.Bsc`; any other key is absent. -/
def NETWORK_CHAIN_ID_MAPS (targetMainnet : Bool) (network : Nat) : Option ChainIdEnum :=
  if network = (if targetMainnet then 56 else 97) then some ChainIdEnum.Bsc else none

/-- The wallet's entry in the external store, as far as binance.js writes
it. -/
structure WalletState where
  installed : Bool
  address : Option String
  addressHex : Option String
  connected : Bool
  chainId : Option ChainIdEnum
  deriving DecidableEq

/-- A partial `updateWallet` payload: an outer `none` means the field is
absent from the dispatched object. -/
structure UpdatePayload where
  installed : Option Bool
  address : Option (Option String)
  addressHex : Option (Option String)
  connected : Option Bool
  chainId : Option (Option ChainIdEnum)
  deriving DecidableEq

/-- Modelled from the spec: the external store's `updateWallet` action (the
section-6 state sink), which is not among the repository's source files.  It
merges the partial payload into the wallet state; fields absent from the
payload keep their previous value. -/
def updateWallet (s : WalletState) (u : UpdatePayload) : WalletState :=
  { installed := u.installed.getD s.installed
    address := u.address.getD s.address
    addressHex := u.addressHex.getD s.addressHex
    connected := u.connected.getD s.connected
    chainId := u.chainId.getD s.chainId }

/-- JS `accounts[0] || null`: the first element, with a missing element and
the empty string both collapsing to `null`. -/
def jsFirstOrNull (accounts : List String) : Option String :=
  match accounts with
  | [] => none
  | a :: _ => if a == "" then none else some a

/-- The payload dispatched by the `accountsChanged` handler (binance.js lines
70-80).  `toChecksumAddress` is `web3.utils.toChecksumAddress` and
`tryToConvertAddressToHex` the helper imported from the walletApi index; both
are external.  The JS `address && web3.utils.toChecksumAddress(address)`
short-circuit is `Option.map`, and `connected: !!checksumAddress` is
`isSome`.  No `chainId` key is dispatched. -/
def onAccountsChanged (toChecksumAddress : String → String)
    (tryToConvertAddressToHex : Option String → Option String)
    (accounts : List String) : UpdatePayload :=
  let address := jsFirstOrNull accounts
  let addressHex := tryToConvertAddressToHex address
  let checksumAddress := address.map toChecksumAddress
  { installed := none
    address := some checksumAddress
    addressHex := some addressHex
    connected := some checksumAddress.isSome
    chainId := none }

/-- The payload dispatched by the `chainChanged` handler (binance.js lines
82-87): only the `chainId` key, looked up in `NETWORK_CHAIN_ID_MAPS`. -/
def onChainChanged (targetMainnet : Bool) (network : Nat) : UpdatePayload :=
  { installed := none
    address := none
    addressHex := none
    connected := none
    chainId := some (NETWORK_CHAIN_ID_MAPS targetMainnet network) }

/-- Concrete fixture: an 18-decimal registry entry. -/
def sampleTokenBasic18 : TokenBasic := { decimals := 18 }

/-- Concrete fixture: an 8-decimal registry entry. -/
def sampleTokenBasic8 : TokenBasic := { decimals := 8 }

/-- Concrete fixture: a chain without an `nftFeeName`. -/
def sampleChain : Chain :=
  { lockContractHash := "ab01", nftLockContractHash := "0xAB", nftFeeName := none }

/-- Concrete fixture: a chain with a truthy `nftFeeName`. -/
def sampleNftChain : Chain :=
  { lockContractHash := "ab01", nftLockContractHash := "0xAB", nftFeeName := some "BNB" }

/-- Concrete fixture: every token resolves to 18 decimals, every chain to
`sampleChain`. -/
def sampleStore : Store :=
  { getTokenBasicByChainIdAndTokenHash := fun _ _ => some sampleTokenBasic18
    getChain := fun _ => sampleChain }

/-- Concrete fixture: every token resolves to 8 decimals, every chain to
`sampleNftChain`. -/
def sampleNftStore : Store :=
  { getTokenBasicByChainIdAndTokenHash := fun _ _ => some sampleTokenBasic8
    getChain := fun _ => sampleNftChain }

/-- Concrete fixture: a provider with fixed balances, a lowercase approved
spender, and no receipt for any hash. -/
def sampleProvider : Provider :=
  { ethGetBalance := fun _ => 42
    balanceOf := fun _ _ => 7
    allowance := fun _ _ _ => 3
    totalSupply := fun _ => 9
    getApproved := fun _ _ => "0xab"
    getTransactionReceipt := fun _ => none }

/-- Concrete fixture: a provider whose every receipt lookup yields a
successful receipt. -/
def sampleProviderDone : Provider :=
  { ethGetBalance := fun _ => 42
    balanceOf := fun _ _ => 7
    allowance := fun _ _ _ => 3
    totalSupply := fun _ => 9
    getApproved := fun _ _ => "0xab"
    getTransactionReceipt := fun _ => some { status := true } }

/-- Concrete fixture: a provider whose every receipt lookup yields a failed
receipt. -/
def sampleProviderFailed : Provider :=
  { ethGetBalance := fun _ => 42
    balanceOf := fun _ _ => 7
    allowance := fun _ _ _ => 3
    totalSupply := fun _ => 9
    getApproved := fun _ _ => "0xab"
    getTransactionReceipt := fun _ => some { status := false } }

theorem settleResolve_of_ne_pending (s : Settlement) (h : String)
    (hp : s ≠ Settlement.pending) : settleResolve s h = s := by
  cases s <;> simp_all [settleResolve]

theorem settleReject_of_ne_pending (s : Settlement) (m : String)
    (hp : s ≠ Settlement.pending) : settleReject s m = s := by
  cases s <;> simp_all [settleReject]

theorem confirmLaterStep_settled_frozen (s : ConfirmLaterState) (e : PromiseEvent)
    (hp : s.settled ≠ Settlement.pending) :
    (confirmLaterStep s e).settled = s.settled := by
  cases e with
  | transactionHash h =>
    simp only [confirmLaterStep]
    split
    · simp [settleResolve_of_ne_pending s.settled h hp]
    · rfl
  | error m =>
    simp only [confirmLaterStep]
    split
    · simp [settleReject_of_ne_pending s.settled m hp]
    · rfl
  | confirmation n =>
    simp only [confirmLaterStep]
    split <;> rfl

theorem confirmLaterFold_settled_frozen (events : List PromiseEvent)
    (s : ConfirmLaterState) (hp : s.settled ≠ Settlement.pending) :
    (events.foldl confirmLaterStep s).settled = s.settled := by
  induction events generalizing s with
  | nil => rfl
  | cons e rest ih =>
    rw [List.foldl_cons]
    have hstep := confirmLaterStep_settled_frozen s e hp
    rw [ih (confirmLaterStep s e) (by rw [hstep]; exact hp), hstep]

theorem confirmLaterStep_hash_listener (s : ConfirmLaterState) (e : PromiseEvent) :
    (confirmLaterStep s e).hashListenerOn = s.hashListenerOn := by
  cases e <;> simp only [confirmLaterStep] <;> split <;> rfl

theorem confirmLaterStep_error_listener (s : ConfirmLaterState) (e : PromiseEvent) :
    (confirmLaterStep s e).errorListenerOn = s.errorListenerOn := by
  cases e <;> simp only [confirmLaterStep] <;> split <;> rfl

theorem confirmLaterStep_conf_listener (s : ConfirmLaterState) (e : PromiseEvent) :
    (confirmLaterStep s e).confListenerOn =
      (s.confListenerOn && !isConfirmationEvent e) := by
  cases e with
  | transactionHash h =>
    simp only [confirmLaterStep, isConfirmationEvent]
    split <;> simp
  | error m =>
    simp only [confirmLaterStep, isConfirmationEvent]
    split <;> simp
  | confirmation n =>
    simp only [confirmLaterStep, isConfirmationEvent]
    split <;> simp_all

theorem confirmLaterFold_settled_spec (events : List PromiseEvent)
    (s : ConfirmLaterState) (hh : s.hashListenerOn = true)
    (he : s.errorListenerOn = true) (hp : s.settled = Settlement.pending) :
    (events.foldl confirmLaterStep s).settled = specSettlement events := by
  induction events generalizing s with
  | nil => simpa [specSettlement] using hp
  | cons e rest ih =>
    cases e with
    | transactionHash h =>
      rw [List.foldl_cons]
      have hstep : (confirmLaterStep s (PromiseEvent.transactionHash h)).settled =
          Settlement.resolvedWith h := by
        simp [confirmLaterStep, hh, hp, settleResolve]
      rw [confirmLaterFold_settled_frozen rest _ (by rw [hstep]; simp), hstep]
      rfl
    | error m =>
      rw [List.foldl_cons]
      have hstep : (confirmLaterStep s (PromiseEvent.error m)).settled =
          Settlement.rejectedWith m := by
        simp [confirmLaterStep, he, hp, settleReject]
      rw [confirmLaterFold_settled_frozen rest _ (by rw [hstep]; simp), hstep]
      rfl
    | confirmation n =>
      rw [List.foldl_cons]
      have hgoal : (rest.foldl confirmLaterStep
          (confirmLaterStep s (PromiseEvent.confirmation n))).settled =
          specSettlement rest := by
        apply ih
        · rw [confirmLaterStep_hash_listener]; exact hh
        · rw [confirmLaterStep_error_listener]; exact he
        · simp only [confirmLaterStep]
          split <;> exact hp
      rw [hgoal]
      rfl

theorem confirmLaterFold_listeners (events : List PromiseEvent)
    (s : ConfirmLaterState) :
    (events.foldl confirmLaterStep s).hashListenerOn = s.hashListenerOn ∧
      (events.foldl confirmLaterStep s).errorListenerOn = s.errorListenerOn ∧
      (events.foldl confirmLaterStep s).confListenerOn =
        (s.confListenerOn && !hasConfirmation events) := by
  induction events generalizing s with
  | nil => simp [hasConfirmation]
  | cons e rest ih =>
    obtain ⟨ih1, ih2, ih3⟩ := ih (confirmLaterStep s e)
    rw [List.foldl_cons]
    refine ⟨?_, ?_, ?_⟩
    · rw [ih1, confirmLaterStep_hash_listener]
    · rw [ih2, confirmLaterStep_error_listener]
    · rw [ih3, confirmLaterStep_conf_listener]
      simp [hasConfirmation, Bool.and_assoc]

/-- Concrete fixture: a connected wallet state with a known chain id. -/
def sampleWalletState : WalletState :=
  { installed := true
    address := some "0xA"
    addressHex := some "a"
    connected := true
    chainId := some ChainIdEnum.Bsc }

/-- C1: for every `lock` call whose token registry lookup succeeds, the native
value attached to the submitted transaction equals the integer-converted
transfer amount when the source token hash is the native sentinel, and the
integer-converted fee otherwise. -/
theorem lock_native_value_routing (store : Store) (addressToHex : String → String)
    (fromChainId : Nat) (fromAddress fromTokenHash : String) (toChainId : Nat)
    (toAddress amount fee : String) (tb : TokenBasic)
    (h : store.getTokenBasicByChainIdAndTokenHash fromChainId fromTokenHash = some tb) :
    (lock store addressToHex fromChainId fromAddress fromTokenHash toChainId
        toAddress amount fee).map LockTx.value =
      some (if fromTokenHash = nativeTokenSentinel then
          decimalToInteger amount tb.decimals
        else
          decimalToInteger fee
            (if jsTruthyStr (store.getChain fromChainId).nftFeeName then 18
             else tb.decimals)) := by
  simp [lock, h]

/-- C1 witness: the spec scenario — locking the native sentinel token with
amount "1.5" at 18 decimals and fee "0.01" sends the native value
`decimalToInteger "1.5" 18 = 1.5·10^18`, not the fee `10^16`. -/
theorem lock_native_value_routing_witness :
    (lock sampleStore id 1 "addr" nativeTokenSentinel 2 "to" "1.5" "0.01").map
        LockTx.value = some (decimalToInteger "1.5" 18) ∧
      decimalToInteger "1.5" 18 = 1500000000000000000 ∧
      decimalToInteger "0.01" 18 = 10000000000000000 := by
  have h := lock_native_value_routing sampleStore id 1 "addr" nativeTokenSentinel 2
    "to" "1.5" "0.01" sampleTokenBasic18 rfl
  exact ⟨h.trans (by decide), by decide, by decide⟩

/-- C2: for every sequence of signals emitted by a submission, the promise
returned by `confirmLater` settles exactly as its first transactionHash/error
signal dictates — resolving with the hash when a hash precedes any error,
rejecting when an error comes first — and once settled no further events,
confirmation events included, ever change the settlement. -/
theorem confirmLater_settles_once (events : List PromiseEvent) :
    (confirmLaterRun events).settled = specSettlement events ∧
      ∀ more : List PromiseEvent,
        (confirmLaterRun events).settled ≠ Settlement.pending →
          (confirmLaterRun (events ++ more)).settled =
            (confirmLaterRun events).settled := by
  refine ⟨confirmLaterFold_settled_spec events confirmLaterInit rfl rfl rfl, ?_⟩
  intro more hne
  show ((events ++ more).foldl confirmLaterStep confirmLaterInit).settled = _
  rw [List.foldl_append]
  exact confirmLaterFold_settled_frozen more _ hne

/-- C2 witness: after a transactionHash signal the promise is settled (with
that hash), and two later confirmation events leave the settlement
unchanged. -/
theorem confirmLater_settles_once_witness :
    (confirmLaterRun [PromiseEvent.transactionHash "ab"]).settled ≠
        Settlement.pending ∧
      (confirmLaterRun ([PromiseEvent.transactionHash "ab"] ++
          [PromiseEvent.confirmation 1, PromiseEvent.confirmation 2])).settled =
        (confirmLaterRun [PromiseEvent.transactionHash "ab"]).settled :=
  ⟨by decide, (confirmLater_settles_once [PromiseEvent.transactionHash "ab"]).2
    [PromiseEvent.confirmation 1, PromiseEvent.confirmation 2] (by decide)⟩

/-- C3 counterexample: deliver exactly one transactionHash signal.  Afterwards
the transactionHash and error listeners are still registered on the submission
— they are not retired, together or at all — and the confirmation listener has
not been unsubscribed either, refuting the claim at this input. -/
theorem confirmLater_listeners_not_retired :
    ¬((confirmLaterRun [PromiseEvent.transactionHash "ab"]).hashListenerOn = false ∧
        (confirmLaterRun [PromiseEvent.transactionHash "ab"]).errorListenerOn = false) ∧
      ¬(confirmLaterRun [PromiseEvent.transactionHash "ab"]).confListenerOn = false := by
  decide

/-- C3 (amended): the transactionHash and error listeners registered by
`confirmLater` are never unregistered — after any event sequence both are
still registered, double settlement being prevented by the promise's
settle-once semantics rather than by listener removal — while the confirmation
listener is unsubscribed exactly when a confirmation event has been delivered:
its handler removes itself on the first confirmation, independent of hash
assignment. -/
theorem confirmLater_listener_dynamics (events : List PromiseEvent) :
    (confirmLaterRun events).hashListenerOn = true ∧
      (confirmLaterRun events).errorListenerOn = true ∧
      (confirmLaterRun events).confListenerOn = !hasConfirmation events := by
  obtain ⟨h1, h2, h3⟩ := confirmLaterFold_listeners events confirmLaterInit
  refine ⟨h1, h2, ?_⟩
  show (events.foldl confirmLaterStep confirmLaterInit).confListenerOn =
    !hasConfirmation events
  rw [h3]
  simp [confirmLaterInit]

/-- C4: for every `lock` call whose token registry lookup succeeds, the fee is
converted with 18 decimals when the source chain's registry entry has a truthy
`nftFeeName`, and with the source token's own decimals otherwise. -/
theorem lock_fee_decimals_nftFeeName (store : Store) (addressToHex : String → String)
    (fromChainId : Nat) (fromAddress fromTokenHash : String) (toChainId : Nat)
    (toAddress amount fee : String) (tb : TokenBasic)
    (h : store.getTokenBasicByChainIdAndTokenHash fromChainId fromTokenHash = some tb) :
    (lock store addressToHex fromChainId fromAddress fromTokenHash toChainId
        toAddress amount fee).map LockTx.fee =
      some (decimalToInteger fee
        (if jsTruthyStr (store.getChain fromChainId).nftFeeName then 18
         else tb.decimals)) := by
  simp [lock, h]

/-- C4 witness: a fungible lock on a chain with `nftFeeName = "BNB"` and an
8-decimal token converts the fee at 18 decimals, not at the token's 8. -/
theorem lock_fee_decimals_nftFeeName_witness :
    (lock sampleNftStore id 1 "addr" "feed" 2 "to" "1" "0.01").map LockTx.fee =
        some (decimalToInteger "0.01" 18) ∧
      sampleTokenBasic8.decimals = 8 ∧
      decimalToInteger "0.01" 18 ≠ decimalToInteger "0.01" 8 := by
  have h := lock_fee_decimals_nftFeeName sampleNftStore id 1 "addr" "feed" 2 "to"
    "1" "0.01" sampleTokenBasic8 rfl
  exact ⟨h.trans (by decide), rfl, by decide⟩

/-- C5: `getBalance` on the native sentinel issues only the native-balance
read — no token-contract call — and returns
`integerToDecimal(rawNativeBalance, decimals)` with the registry entry's
decimals. -/
theorem getBalance_native_no_contract_call (store : Store) (provider : Provider)
    (chainId : Nat) (address : String) (tb : TokenBasic)
    (h : store.getTokenBasicByChainIdAndTokenHash chainId nativeTokenSentinel = some tb) :
    getBalance store provider chainId address nativeTokenSentinel =
        some (integerToDecimal (provider.ethGetBalance address) tb.decimals,
          [ChainCall.nativeBalance address]) ∧
      (getBalance store provider chainId address nativeTokenSentinel).map
        (fun r => r.2.any isContractCall) = some false := by
  have heq : getBalance store provider chainId address nativeTokenSentinel =
      some (integerToDecimal (provider.ethGetBalance address) tb.decimals,
        [ChainCall.nativeBalance address]) := by
    simp [getBalance, h]
  refine ⟨heq, ?_⟩
  rw [heq]
  rfl

/-- C5 witness: with a raw native balance of 42 and 18 decimals the call
returns `integerToDecimal 42 18` and records a single native-balance read. -/
theorem getBalance_native_no_contract_call_witness :
    getBalance sampleStore sampleProvider 1 "addr" nativeTokenSentinel =
        some (integerToDecimal 42 18, [ChainCall.nativeBalance "addr"]) ∧
      (getBalance sampleStore sampleProvider 1 "addr" nativeTokenSentinel).map
        (fun r => r.2.any isContractCall) = some false := by
  have h := getBalance_native_no_contract_call sampleStore sampleProvider 1 "addr"
    sampleTokenBasic18 rfl
  exact ⟨h.1.trans (by decide), h.2⟩

/-- C6: `getAllowance` and `getTotalSupply` on the native sentinel return the
explicit not-applicable marker (JS `null`, embedded as the inner `none`) — in
particular never the string "0" — and issue no chain call at all, whatever the
registry contains. -/
theorem getAllowance_getTotalSupply_native_notApplicable (store : Store)
    (provider : Provider) (chainId : Nat) (address spender : String) :
    getAllowance store provider chainId address nativeTokenSentinel spender =
        some (none, []) ∧
      getTotalSupply store provider chainId nativeTokenSentinel =
        some (none, []) := by
  constructor
  · simp [getAllowance]
  · simp [getTotalSupply]

/-- C7: `convertWalletError` returns an already-typed `WalletError` unchanged;
on a raw error it yields `USER_REJECTED` exactly when the message contains
"Rejected by user", `INSUFFICIENT_FUNDS` exactly when it contains
"insufficient funds" but not the rejection phrase, `UNKNOWN_ERROR` otherwise,
always retaining the raw error as the cause and its message as the message. -/
theorem convertWalletError_classification :
    (∀ e : WalletError, convertWalletError (ProviderError.wallet e) = e) ∧
      ∀ r : RawError,
        ((convertWalletError (ProviderError.raw r)).code = ErrorCode.USER_REJECTED ↔
            strIncludes r.message "Rejected by user" = true) ∧
          ((convertWalletError (ProviderError.raw r)).code =
              ErrorCode.INSUFFICIENT_FUNDS ↔
            (strIncludes r.message "insufficient funds" = true ∧
              strIncludes r.message "Rejected by user" = false)) ∧
          ((convertWalletError (ProviderError.raw r)).code = ErrorCode.UNKNOWN_ERROR ↔
            (strIncludes r.message "Rejected by user" = false ∧
              strIncludes r.message "insufficient funds" = false)) ∧
          (convertWalletError (ProviderError.raw r)).cause = some r ∧
          (convertWalletError (ProviderError.raw r)).message = r.message := by
  refine ⟨fun e => rfl, fun r => ?_⟩
  cases h1 : strIncludes r.message "Rejected by user" <;>
    cases h2 : strIncludes r.message "insufficient funds" <;>
      simp [convertWalletError, h1, h2]

/-- C8: `getTransactionStatus` maps an absent receipt to `Pending`, a receipt
with a true success flag to `Done` and a false flag to `Failed`; the lookup is
re-issued on every call (the result is a pure function of the provider's fresh
receipt answer). -/
theorem getTransactionStatus_mapping (provider : Provider) (transactionHash : String) :
    (provider.getTransactionReceipt ("0x" ++ transactionHash) = none →
        getTransactionStatus provider transactionHash =
          SingleTransactionStatus.Pending) ∧
      ∀ receipt : TransactionReceipt,
        provider.getTransactionReceipt ("0x" ++ transactionHash) = some receipt →
          getTransactionStatus provider transactionHash =
            (if receipt.status then SingleTransactionStatus.Done
             else SingleTransactionStatus.Failed) := by
  constructor
  · intro h
    simp [getTransactionStatus, h]
  · intro receipt h
    simp [getTransactionStatus, h]

/-- C8 witness: the three branches on synthetic receipts — no receipt gives
`Pending`, a successful receipt gives `Done`, a failed one gives `Failed`. -/
theorem getTransactionStatus_mapping_witness :
    getTransactionStatus sampleProvider "cd" = SingleTransactionStatus.Pending ∧
      getTransactionStatus sampleProviderDone "cd" = SingleTransactionStatus.Done ∧
      getTransactionStatus sampleProviderFailed "cd" = SingleTransactionStatus.Failed := by
  refine ⟨(getTransactionStatus_mapping sampleProvider "cd").1 rfl, ?_, ?_⟩
  · exact ((getTransactionStatus_mapping sampleProviderDone "cd").2
      { status := true } rfl).trans (by decide)
  · exact ((getTransactionStatus_mapping sampleProviderFailed "cd").2
      { status := false } rfl).trans (by decide)

/-- C9: applying the `accountsChanged` payload sets address, addressHex and
connected (connected false and address null on an empty account list) while
leaving the stored chain id untouched; applying the `chainChanged` payload
updates only the chain id, leaving installed, address, addressHex and
connected untouched. -/
theorem accountsChanged_chainChanged_frame (s : WalletState)
    (toChecksumAddress : String → String)
    (tryToConvertAddressToHex : Option String → Option String)
    (accounts : List String) (targetMainnet : Bool) (network : Nat) :
    (updateWallet s (onAccountsChanged toChecksumAddress tryToConvertAddressToHex
        accounts)).chainId = s.chainId ∧
      (updateWallet s (onAccountsChanged toChecksumAddress tryToConvertAddressToHex
        accounts)).address = (jsFirstOrNull accounts).map toChecksumAddress ∧
      (updateWallet s (onAccountsChanged toChecksumAddress tryToConvertAddressToHex
        accounts)).addressHex = tryToConvertAddressToHex (jsFirstOrNull accounts) ∧
      (updateWallet s (onAccountsChanged toChecksumAddress tryToConvertAddressToHex
        accounts)).connected = ((jsFirstOrNull accounts).map toChecksumAddress).isSome ∧
      (accounts = [] →
        (updateWallet s (onAccountsChanged toChecksumAddress tryToConvertAddressToHex
            accounts)).connected = false ∧
          (updateWallet s (onAccountsChanged toChecksumAddress tryToConvertAddressToHex
            accounts)).address = none) ∧
      (updateWallet s (onChainChanged targetMainnet network)).address = s.address ∧
      (updateWallet s (onChainChanged targetMainnet network)).addressHex =
        s.addressHex ∧
      (updateWallet s (onChainChanged targetMainnet network)).connected =
        s.connected ∧
      (updateWallet s (onChainChanged targetMainnet network)).installed =
        s.installed ∧
      (updateWallet s (onChainChanged targetMainnet network)).chainId =
        NETWORK_CHAIN_ID_MAPS targetMainnet network := by
  refine ⟨rfl, rfl, rfl, rfl, ?_, rfl, rfl, rfl, rfl, rfl⟩
  intro h
  subst h
  exact ⟨rfl, rfl⟩

/-- C9 witness: starting from a connected state with a known chain id, an
`accountsChanged` with the empty list disconnects (address null) and leaves
the chain id untouched. -/
theorem accountsChanged_chainChanged_frame_witness :
    (updateWallet sampleWalletState (onAccountsChanged id (fun a => a) [])).connected =
        false ∧
      (updateWallet sampleWalletState (onAccountsChanged id (fun a => a) [])).address =
        none ∧
      (updateWallet sampleWalletState (onAccountsChanged id (fun a => a) [])).chainId =
        some ChainIdEnum.Bsc := by
  have h := accountsChanged_chainChanged_frame sampleWalletState id (fun a => a) []
    true 56
  obtain ⟨hc, -, -, -, hempty, -⟩ := h
  obtain ⟨h1, h2⟩ := hempty rfl
  exact ⟨h1, h2, hc.trans (by decide)⟩

/-- C10: `getNFTApproved` returns true exactly when the approved spender read
from the contract is not string-identical to the chain's NFT lock contract
address; the comparison performs no case normalization, as the concrete
conjunct shows on a spender differing from the lock address only in letter
case. -/
theorem getNFTApproved_identity_comparison :
    (∀ (store : Store) (provider : Provider) (fromChainId : Nat)
        (tokenHash id : String),
      (getNFTApproved store provider fromChainId tokenHash id = true ↔
        ¬provider.getApproved tokenHash (decimalToInteger id 0) =
          (store.getChain fromChainId).nftLockContractHash)) ∧
      getNFTApproved sampleStore sampleProvider 1 "tok" "1" = true := by
  constructor
  · intro store provider fromChainId tokenHash id
    simp [getNFTApproved]
  · decide




